import Mathlib

/-!
# Inventory form controller (`service/static/js/rest_api.js`)

A shallow embedding of the browser-side controller and the properties of its
request / response / render cycle.

The controller is JavaScript running on jQuery.  The parts of the language
runtime that the handlers rely on are embedded first:

* numbers (`JSNumber`): a finite number is kept as an exact decimal
  `m / 10 ^ scale`.  The rounding of a literal to the nearest binary64 value is
  not modelled, and `-0` is identified with `0` (the controller cannot tell them
  apart: both print as `0`, both are falsy, both satisfy `== 0`);
* the unary `+` applied to text (`stringToNumber`), following the
  `StringNumericLiteral` grammar and its mathematical value;
* `Number::toString` (`numberToString`), following the case analysis of the
  language standard on the decimal digits of the value;
* the scalar values, `ToString`, `ToNumber`, `ToBoolean`, `== true`;
* jQuery `.val(v)`, `.val()`, `.empty()` and `.append(v)`.

The page is a record of the six form fields (each a cell holding text), the
children of the flash area and the children of the results container; a child
is the text or markup of one `.append` call, as written by the handler (the
browser's parsing of that markup into nodes is outside this file, and so is
the HTML template that declares the elements).  A click handler returns the
page as it stands when `$.ajax` is called together with the settings of every
`$.ajax` call it makes; a response handler takes the page and the response.
An item of a response is an object whose six properties hold scalar values.
-/

namespace Inventory

/-! ## Numbers -/

/-- JavaScript numbers as the controller observes them.  `fin m scale` is the
exact decimal `m / 10 ^ scale`, kept canonical by `JSNumber.normalize`
(`scale = 0`, or `m` is not a multiple of ten). -/
inductive JSNumber where
  | nan
  | infinity (negative : Bool)
  | fin (m : Int) (scale : Nat)
  deriving DecidableEq, Repr

namespace JSNumber

/-- The canonical form of `m / 10 ^ scale`. -/
def normalize : Int → Nat → JSNumber
  | m, 0 => fin m 0
  | m, s + 1 => if m % 10 = 0 then normalize (m / 10) s else fin m (s + 1)

/-- The number `m * 10 ^ x`. -/
def scaled (m : Int) (x : Int) : JSNumber :=
  if 0 ≤ x then fin (m * 10 ^ x.toNat) 0 else normalize m (-x).toNat

/-- An integer as a number. -/
def ofInt (z : Int) : JSNumber := fin z 0

/-- The test `n == 0` on numbers. -/
def isZero : JSNumber → Bool
  | fin m _ => decide (m = 0)
  | _ => false

/-- The standard's `ToBoolean` on a number: false for zero and `NaN`. -/
def toBoolean : JSNumber → Bool
  | nan => false
  | infinity _ => true
  | fin m _ => decide (m ≠ 0)

/-- Finite numbers, the ones JSON can carry. -/
def isFinite : JSNumber → Bool
  | fin _ _ => true
  | _ => false

end JSNumber

/-! ## Text and numbers -/

/-- The character of a decimal digit `d < 10`. -/
def digitChar (d : Nat) : Char := Char.ofNat (48 + d)

/-- The value of a decimal digit character. -/
def digitValue (c : Char) : Nat := c.toNat - 48

/-- The characters `0` to `9`. -/
def isDecimalDigit (c : Char) : Bool := decide (48 ≤ c.toNat) && decide (c.toNat ≤ 57)

/-- Worker of `natDigits`: most significant digit first, `fuel` bounds the
number of digits. -/
def natDigitsAux : Nat → Nat → List Char → List Char
  | 0, _, acc => acc
  | fuel + 1, n, acc =>
    if n / 10 = 0 then digitChar (n % 10) :: acc
    else natDigitsAux fuel (n / 10) (digitChar (n % 10) :: acc)

/-- The decimal digits of a natural number, without leading zeros. -/
def natDigits (n : Nat) : List Char := natDigitsAux (n + 1) n []

/-- The value of a string of decimal digits. -/
def decimalValue (cs : List Char) : Nat :=
  cs.foldl (fun acc c => 10 * acc + digitValue c) 0

/-- Removes the zeros at the end of a digit string. -/
def stripTrailingZeros (cs : List Char) : List Char :=
  (cs.reverse.dropWhile (fun c => c == '0')).reverse

/-- The digits-and-exponent part of `Number::toString`: `ds` are the `k`
significant digits and the value is `0.ds * 10 ^ n`. -/
def formatDigits (ds : List Char) (n : Int) : List Char :=
  let k : Int := ds.length
  if k ≤ n ∧ n ≤ 21 then
    ds ++ List.replicate (n - k).toNat '0'
  else if 0 < n ∧ n ≤ 21 then
    ds.take n.toNat ++ '.' :: ds.drop n.toNat
  else if -6 < n ∧ n ≤ 0 then
    '0' :: '.' :: (List.replicate (-n).toNat '0' ++ ds)
  else
    let e : Int := n - 1
    let ex : List Char := 'e' :: (if 0 ≤ e then '+' else '-') :: natDigits e.natAbs
    match ds with
    | [] => ex
    | [d] => d :: ex
    | d :: rest => d :: '.' :: (rest ++ ex)

/-- The standard's `Number::toString` in radix ten. -/
def numberToString : JSNumber → String
  | .nan => "NaN"
  | .infinity false => "Infinity"
  | .infinity true => "-Infinity"
  | .fin m scale =>
    if m = 0 then "0"
    else
      let ds := natDigits m.natAbs
      let body := formatDigits (stripTrailingZeros ds) ((ds.length : Int) - (scale : Int))
      String.mk (if m < 0 then '-' :: body else body)

/-- White space and line terminators of the `StringNumericLiteral` grammar. -/
def isStrWhiteSpaceChar (c : Char) : Bool :=
  let n := c.toNat
  n == 0x09 || n == 0x0A || n == 0x0B || n == 0x0C || n == 0x0D || n == 0x20
    || n == 0xA0 || n == 0x1680 || (0x2000 ≤ n && n ≤ 0x200A) || n == 0x2028
    || n == 0x2029 || n == 0x202F || n == 0x205F || n == 0x3000 || n == 0xFEFF

/-- Removes leading and trailing white space. -/
def trimWhiteSpace (cs : List Char) : List Char :=
  ((cs.dropWhile isStrWhiteSpaceChar).reverse.dropWhile isStrWhiteSpaceChar).reverse

/-- The value of a digit in radix sixteen, if the character is one. -/
def hexDigitValue (c : Char) : Option Nat :=
  let n := c.toNat
  if 48 ≤ n ∧ n ≤ 57 then some (n - 48)
  else if 97 ≤ n ∧ n ≤ 102 then some (n - 87)
  else if 65 ≤ n ∧ n ≤ 70 then some (n - 55)
  else none

/-- The value of a non-empty digit string in the given radix, if every
character is a digit of that radix. -/
def radixValue (radix : Nat) : List Char → Option Nat
  | [] => none
  | cs => cs.foldl
      (fun acc c =>
        match acc, hexDigitValue c with
        | some a, some d => if d < radix then some (radix * a + d) else none
        | _, _ => none)
      (some 0)

/-- A `NonDecimalIntegerLiteral`: `0x`, `0o` or `0b` followed by digits. -/
def nonDecimalIntegerLiteral : List Char → Option Nat
  | '0' :: 'x' :: ds => radixValue 16 ds
  | '0' :: 'X' :: ds => radixValue 16 ds
  | '0' :: 'o' :: ds => radixValue 8 ds
  | '0' :: 'O' :: ds => radixValue 8 ds
  | '0' :: 'b' :: ds => radixValue 2 ds
  | '0' :: 'B' :: ds => radixValue 2 ds
  | _ => none

/-- A non-empty run of decimal digits and nothing else. -/
def isDecimalDigits (cs : List Char) : Bool := !cs.isEmpty && cs.all isDecimalDigit

/-- The `ExponentPart` that ends a decimal literal, or nothing. -/
def exponentPart : List Char → Option Int
  | [] => some 0
  | c :: rest =>
    if c = 'e' ∨ c = 'E' then
      match rest with
      | '+' :: ds => if isDecimalDigits ds then some (decimalValue ds) else none
      | '-' :: ds => if isDecimalDigits ds then some (-(decimalValue ds : Int)) else none
      | ds => if isDecimalDigits ds then some (decimalValue ds) else none
    else none

/-- A `StrUnsignedDecimalLiteral` other than `Infinity`: the digits of the
mantissa and the power of ten that scales them. -/
def strUnsignedDecimalLiteral (cs : List Char) : Option (Nat × Int) :=
  let ip := cs.takeWhile isDecimalDigit
  let r1 := cs.dropWhile isDecimalDigit
  let fp := match r1 with
    | '.' :: t => t.takeWhile isDecimalDigit
    | _ => []
  let r2 := match r1 with
    | '.' :: t => t.dropWhile isDecimalDigit
    | _ => r1
  if ip.isEmpty && fp.isEmpty then none
  else
    match exponentPart r2 with
    | some x => some (decimalValue (ip ++ fp), x - (fp.length : Int))
    | none => none

/-- A `StrDecimalLiteral` whose sign has been read. -/
def strDecimalLiteralBody (negative : Bool) (cs : List Char) : JSNumber :=
  if cs = "Infinity".data then .infinity negative
  else
    match strUnsignedDecimalLiteral cs with
    | some (m, x) => JSNumber.scaled (if negative then -(m : Int) else m) x
    | none => .nan

/-- A `StrDecimalLiteral`: an optional sign and an unsigned literal. -/
def strDecimalLiteral : List Char → JSNumber
  | '+' :: cs => strDecimalLiteralBody false cs
  | '-' :: cs => strDecimalLiteralBody true cs
  | cs => strDecimalLiteralBody false cs

/-- The standard's `StringToNumber`, which is what the unary `+` of the
handlers computes on a form field. -/
def stringToNumber (s : String) : JSNumber :=
  let cs := trimWhiteSpace s.data
  if cs.isEmpty then .fin 0 0
  else
    match nonDecimalIntegerLiteral cs with
    | some n => .fin n 0
    | none => strDecimalLiteral cs

/-! ## Values -/

/-- The scalar values that reach the controller: what a form field, a field
of a JSON object or a `message` can be. -/
inductive JSValue where
  | undefined
  | null
  | boolean (b : Bool)
  | number (n : JSNumber)
  | string (s : String)
  deriving DecidableEq, Repr

namespace JSValue

/-- The standard's `ToString`, used by template literals and by `+` on text. -/
def toStr : JSValue → String
  | undefined => "undefined"
  | null => "null"
  | boolean true => "true"
  | boolean false => "false"
  | number n => numberToString n
  | string s => s

/-- The standard's `ToNumber`. -/
def toNumber : JSValue → JSNumber
  | undefined => .nan
  | null => .fin 0 0
  | boolean true => .fin 1 0
  | boolean false => .fin 0 0
  | number n => n
  | string s => stringToNumber s

/-- The standard's `ToBoolean`, the test of an `if`. -/
def toBoolean : JSValue → Bool
  | undefined => false
  | null => false
  | boolean b => b
  | number n => n.toBoolean
  | string s => decide (s ≠ "")

/-- The loose comparison `v == true`: `true` becomes the number one and the
other side is compared with it as a number; `undefined` and `null` equal
neither. -/
def looselyEqualsTrue : JSValue → Bool
  | undefined => false
  | null => false
  | v => decide (v.toNumber = .fin 1 0)

end JSValue

/-- The member values of the text `JSON.stringify` writes for an object with
scalar properties, in property order: a property holding `undefined` is left
out and a number that is not finite is written as `null`. -/
def JSON_stringify (properties : List (String × JSValue)) : List (String × JSValue) :=
  properties.filterMap fun (key, v) =>
    match v with
    | .undefined => none
    | .number n => if n.isFinite then some (key, .number n) else some (key, .null)
    | v => some (key, v)

/-! ## jQuery -/

/-- The text an input holds after `.val(v)`: nothing for `undefined` and
`null`, the string conversion otherwise. -/
def jq_val (v : JSValue) : String :=
  match v with
  | .undefined => ""
  | .null => ""
  | v => v.toStr

/-- The children `.append(v)` adds for a scalar argument: jQuery skips an
argument unless it is truthy or the number zero, and adds one fragment built
from its text otherwise. -/
def jq_append_nodes (v : JSValue) : List String :=
  match v with
  | .number n => if n.toBoolean || n.isZero then [numberToString n] else []
  | v => if v.toBoolean then [v.toStr] else []

/-- The children of an element after `.empty()`. -/
def jq_empty (_children : List String) : List String := []

/-- The children of an element after `.append(v)`. -/
def jq_append (children : List String) (v : JSValue) : List String :=
  children ++ jq_append_nodes v

/-! ## The page -/

/-- The six form fields; each holds text. -/
structure Form where
  pid : String
  name : String
  condition : String
  active : String
  quantity : String
  restock_level : String
  deriving DecidableEq, Repr

/-- The part of the document the controller reads and writes. -/
structure Page where
  form : Form
  flash_message : List String
  search_results : List String
  deriving DecidableEq, Repr

/-- An item object of a response: reading a property that is absent gives
`undefined`. -/
structure Item where
  pid : JSValue
  name : JSValue
  condition : JSValue
  active : JSValue
  quantity : JSValue
  restock_level : JSValue
  deriving DecidableEq, Repr

/-- The `responseJSON` property of the `jqXHR` object handed to a failure
handler: `undefined` when the response has no JSON body, otherwise the parsed
body (`other` is a JSON value that is neither `null` nor an object). -/
inductive ResponseJSON where
  | undefined
  | null
  | other
  | object (properties : List (String × JSValue))
  deriving DecidableEq, Repr

/-- The `jqXHR` object as far as the failure handlers read it. -/
structure JqXHR where
  responseJSON : ResponseJSON
  deriving DecidableEq, Repr

/-- Errors a handler can throw. -/
inductive JSError where
  | typeError
  deriving DecidableEq, Repr

/-- The property read `res.responseJSON.message`: a `TypeError` when
`responseJSON` is `undefined` or `null`, `undefined` when the body has no such
property. -/
def JqXHR.responseJSON_message (res : JqXHR) : Except JSError JSValue :=
  match res.responseJSON with
  | .undefined => .error .typeError
  | .null => .error .typeError
  | .other => .ok .undefined
  | .object properties =>
    match properties.lookup "message" with
    | some v => .ok v
    | none => .ok .undefined

/-- What a handler leaves behind: the page as it stands when the handler
returns or throws, and the error if it threw. -/
structure Outcome where
  page : Page
  thrown : Option JSError
  deriving DecidableEq, Repr

/-- The `data` setting of a request. -/
inductive RequestData where
  | text (s : String)
  | json (members : List (String × JSValue))
  deriving DecidableEq, Repr

/-- The settings object passed to `$.ajax`. -/
structure AjaxSettings where
  type : String
  url : String
  contentType : String
  data : RequestData
  deriving DecidableEq, Repr

/-! ## Utility functions (lines 7-34) -/

/-- Updates the form with data from the response. -/
def update_form_data (form : Form) (res : Item) : Form :=
  let form := { form with pid := jq_val res.pid }
  let form := { form with name := jq_val res.name }
  let form := { form with condition := jq_val res.condition }
  let form :=
    if res.active.looselyEqualsTrue then { form with active := jq_val (.string "true") }
    else { form with active := jq_val (.string "false") }
  let form := { form with quantity := jq_val res.quantity }
  { form with restock_level := jq_val res.restock_level }

/-- Clears all form fields. -/
def clear_form_data (form : Form) : Form :=
  let form := { form with name := jq_val (.string "") }
  let form := { form with condition := jq_val (.string "") }
  let form := { form with active := jq_val (.string "") }
  let form := { form with quantity := jq_val (.string "") }
  { form with restock_level := jq_val (.string "") }

/-- Updates the flash message area. -/
def flash_message (page : Page) (message : JSValue) : Page :=
  let page := { page with flash_message := jq_empty page.flash_message }
  { page with flash_message := jq_append page.flash_message message }

/-! ## Retrieve (lines 40-88) -/

/-- The click handler of `retrieve_btn`. -/
def retrieve_btn_click (page : Page) : Page × List AjaxSettings :=
  let pid := stringToNumber page.form.pid
  let page := { page with flash_message := jq_empty page.flash_message }
  let ajax : AjaxSettings :=
    { type := "GET",
      url := "/inventory/" ++ numberToString pid,
      contentType := "application/json",
      data := .text "" }
  (page, [ajax])

/-- The row loop of the `retrieve_btn` success handler: `i` is the loop index,
`table` the markup so far and `firstItem` the first item once it has been seen
(`none` stands for the initial `""`). -/
def retrieve_btn_done_loop : List Item → Nat → String × Option Item → String × Option Item
  | [], _, acc => acc
  | item :: rest, i, (table, firstItem) =>
    let table := table ++ ("<tr pid=\"row_" ++ numberToString (.ofInt i) ++ "\"><td>"
      ++ item.pid.toStr ++ "</td><td>" ++ item.name.toStr ++ "</td><td>"
      ++ item.condition.toStr ++ "</td><td>" ++ item.active.toStr ++ "</td><td>"
      ++ item.quantity.toStr ++ "</td><td>" ++ item.restock_level.toStr ++ "</td></tr>")
    let firstItem := if i = 0 then some item else firstItem
    retrieve_btn_done_loop rest (i + 1) (table, firstItem)

/-- The `ajax.done` handler of `retrieve_btn`.  The test `firstItem != ""` holds for
every item object and fails for the initial `""`. -/
def retrieve_btn_done (page : Page) (res : List Item) : Page :=
  let page := { page with search_results := jq_empty page.search_results }
  let table := "<table class=\"table table-striped\" cellpadding=\"10\">"
  let table := table ++ "<thead><tr>"
  let table := table ++ "<th class=\"col-md-2\">PID</th>"
  let table := table ++ "<th class=\"col-md-2\">Name</th>"
  let table := table ++ "<th class=\"col-md-2\">condition</th>"
  let table := table ++ "<th class=\"col-md-2\">active</th>"
  let table := table ++ "<th class=\"col-md-2\">quantity</th>"
  let table := table ++ "<th class=\"col-md-2\">restock_level</th>"
  let table := table ++ "</tr></thead><tbody>"
  let (table, firstItem) := retrieve_btn_done_loop res 0 (table, none)
  let table := table ++ "</tbody></table>"
  let page := { page with search_results := jq_append page.search_results (.string table) }
  -- copy the first result to the form
  let page :=
    match firstItem with
    | some item => { page with form := update_form_data page.form item }
    | none => page
  flash_message page (.string "Success")

/-- The `ajax.fail` handler of `retrieve_btn`. -/
def retrieve_btn_fail (page : Page) (res : JqXHR) : Outcome :=
  let page := { page with form := clear_form_data page.form }
  match res.responseJSON_message with
  | .error e => { page := page, thrown := some e }
  | .ok message => { page := flash_message page message, thrown := none }

/-! ## Create (lines 94-129) -/

/-- The click handler of `create_btn`. -/
def create_btn_click (page : Page) : Page × List AjaxSettings :=
  let pid := stringToNumber page.form.pid
  let name := page.form.name
  let condition := stringToNumber page.form.condition
  let active := decide (page.form.active = "true")
  let quantity := stringToNumber page.form.quantity
  let restock_level := stringToNumber page.form.restock_level
  let data : List (String × JSValue) :=
    [("pid", .number pid),
     ("name", .string name),
     ("condition", .number condition),
     ("active", .boolean active),
     ("quantity", .number quantity),
     ("restock_level", .number restock_level)]
  let page := { page with flash_message := jq_empty page.flash_message }
  let ajax : AjaxSettings :=
    { type := "POST",
      url := "/inventory",
      contentType := "application/json",
      data := .json (JSON_stringify data) }
  (page, [ajax])

/-- The `ajax.done` handler of `create_btn`. -/
def create_btn_done (page : Page) (res : Item) : Page :=
  let page := { page with form := update_form_data page.form res }
  flash_message page (.string "Success")

/-- The `ajax.fail` handler of `create_btn`. -/
def create_btn_fail (page : Page) (res : JqXHR) : Outcome :=
  match res.responseJSON_message with
  | .error e => { page := page, thrown := some e }
  | .ok message => { page := flash_message page message, thrown := none }

/-! ## Update (lines 136-172) -/

/-- The click handler of `update_btn`. -/
def update_btn_click (page : Page) : Page × List AjaxSettings :=
  let pid := stringToNumber page.form.pid
  let name := page.form.name
  let condition := stringToNumber page.form.condition
  let active := decide (page.form.active = "true")
  let quantity := stringToNumber page.form.quantity
  let restock_level := stringToNumber page.form.restock_level
  let data : List (String × JSValue) :=
    [("pid", .number pid),
     ("name", .string name),
     ("condition", .number condition),
     ("active", .boolean active),
     ("quantity", .number quantity),
     ("restock_level", .number restock_level)]
  let page := { page with flash_message := jq_empty page.flash_message }
  let ajax : AjaxSettings :=
    { type := "PUT",
      url := "/inventory/" ++ numberToString pid,
      contentType := "application/json",
      data := .json (JSON_stringify data) }
  (page, [ajax])

/-- The `ajax.done` handler of `update_btn`. -/
def update_btn_done (page : Page) (res : Item) : Page :=
  let page := { page with form := update_form_data page.form res }
  flash_message page (.string "Success")

/-- The `ajax.fail` handler of `update_btn`. -/
def update_btn_fail (page : Page) (res : JqXHR) : Outcome :=
  match res.responseJSON_message with
  | .error e => { page := page, thrown := some e }
  | .ok message => { page := flash_message page message, thrown := none }

/-! ## Delete all items of a product (lines 179-200) -/

/-- The click handler of `deleteAll_btn`. -/
def deleteAll_btn_click (page : Page) : Page × List AjaxSettings :=
  let pid := stringToNumber page.form.pid
  let page := { page with flash_message := jq_empty page.flash_message }
  let ajax : AjaxSettings :=
    { type := "DELETE",
      url := "/inventory/" ++ numberToString pid,
      contentType := "application/json",
      data := .text "" }
  (page, [ajax])

/-- The `ajax.done` handler of `deleteAll_btn`; the response is not read. -/
def deleteAll_btn_done (page : Page) : Page :=
  let page := { page with form := clear_form_data page.form }
  flash_message page (.string "Inventory Items Deleted!")

/-- The `ajax.fail` handler of `deleteAll_btn`; the response is not read. -/
def deleteAll_btn_fail (page : Page) (_res : JqXHR) : Outcome :=
  { page := flash_message page (.string "Server error!"), thrown := none }

/-! ## Clear the form (lines 206-210) -/

/-- The click handler of `clear_btn`; it calls `$.ajax` nowhere. -/
def clear_btn_click (page : Page) : Page × List AjaxSettings :=
  let page := { page with form := { page.form with pid := jq_val (.string "") } }
  let page := { page with flash_message := jq_empty page.flash_message }
  let page := { page with form := clear_form_data page.form }
  (page, [])

/-! ## List all items (lines 216-260) -/

/-- The click handler of `listAll_btn`. -/
def listAll_btn_click (page : Page) : Page × List AjaxSettings :=
  let page := { page with flash_message := jq_empty page.flash_message }
  let ajax : AjaxSettings :=
    { type := "GET",
      url := "/inventory",
      contentType := "application/json",
      data := .text "" }
  (page, [ajax])

/-- The row loop of the `listAll_btn` success handler: `i` is the loop index,
`table` the markup so far and `firstItem` the first item once it has been seen
(`none` stands for the initial `""`). -/
def listAll_btn_done_loop : List Item → Nat → String × Option Item → String × Option Item
  | [], _, acc => acc
  | item :: rest, i, (table, firstItem) =>
    let table := table ++ ("<tr pid=\"row_" ++ numberToString (.ofInt i) ++ "\"><td>"
      ++ item.pid.toStr ++ "</td><td>" ++ item.name.toStr ++ "</td><td>"
      ++ item.condition.toStr ++ "</td><td>" ++ item.active.toStr ++ "</td><td>"
      ++ item.quantity.toStr ++ "</td><td>" ++ item.restock_level.toStr ++ "</td></tr>")
    let firstItem := if i = 0 then some item else firstItem
    listAll_btn_done_loop rest (i + 1) (table, firstItem)

/-- The `ajax.done` handler of `listAll_btn`.  The test `firstItem != ""` holds for
every item object and fails for the initial `""`. -/
def listAll_btn_done (page : Page) (res : List Item) : Page :=
  let page := { page with search_results := jq_empty page.search_results }
  let table := "<table class=\"table table-striped\" cellpadding=\"10\">"
  let table := table ++ "<thead><tr>"
  let table := table ++ "<th class=\"col-md-2\">PID</th>"
  let table := table ++ "<th class=\"col-md-2\">Name</th>"
  let table := table ++ "<th class=\"col-md-2\">condition</th>"
  let table := table ++ "<th class=\"col-md-2\">active</th>"
  let table := table ++ "<th class=\"col-md-2\">quantity</th>"
  let table := table ++ "<th class=\"col-md-2\">restock_level</th>"
  let table := table ++ "</tr></thead><tbody>"
  let (table, firstItem) := listAll_btn_done_loop res 0 (table, none)
  let table := table ++ "</tbody></table>"
  let page := { page with search_results := jq_append page.search_results (.string table) }
  -- copy the first result to the form
  let page :=
    match firstItem with
    | some item => { page with form := update_form_data page.form item }
    | none => page
  flash_message page (.string "Success")

/-- The `ajax.fail` handler of `listAll_btn`. -/
def listAll_btn_fail (page : Page) (res : JqXHR) : Outcome :=
  match res.responseJSON_message with
  | .error e => { page := page, thrown := some e }
  | .ok message => { page := flash_message page message, thrown := none }

/-! ## Delete one item (lines 262-284) -/

/-- The click handler of `delete_btn`. -/
def delete_btn_click (page : Page) : Page × List AjaxSettings :=
  let pid := stringToNumber page.form.pid
  let condition := stringToNumber page.form.condition
  let page := { page with flash_message := jq_empty page.flash_message }
  let ajax : AjaxSettings :=
    { type := "DELETE",
      url := "/inventory/" ++ numberToString pid ++ "/" ++ numberToString condition,
      contentType := "application/json",
      data := .text "" }
  (page, [ajax])

/-- The `ajax.done` handler of `delete_btn`; the response is not read. -/
def delete_btn_done (page : Page) : Page :=
  let page := { page with form := clear_form_data page.form }
  flash_message page (.string "Inventory Item Deleted!")

/-- The `ajax.fail` handler of `delete_btn`; the response is not read. -/
def delete_btn_fail (page : Page) (_res : JqXHR) : Outcome :=
  { page := flash_message page (.string "Server error!"), thrown := none }

/-! ## Search (lines 289-368) -/

/-- The query string the click handler of `search_btn` builds from the name,
the condition and the active flag it has read. -/
def search_btn_queryString (name : String) (condition : JSNumber) (active : Bool) : String :=
  let queryString := ""
  let queryString :=
    if (JSValue.string name).toBoolean then queryString ++ ("name=" ++ name)
    else queryString
  let queryString :=
    if (JSValue.number condition).toBoolean then
      if queryString.length > 0 then queryString ++ ("&condition=" ++ numberToString condition)
      else queryString ++ ("condition=" ++ numberToString condition)
    else queryString
  let queryString :=
    if (JSValue.boolean active).toBoolean then
      if queryString.length > 0 then queryString ++ ("&active=" ++ (JSValue.boolean active).toStr)
      else queryString ++ ("active=" ++ (JSValue.boolean active).toStr)
    else queryString
  queryString

/-- The click handler of `search_btn`: each of the two branches calls `$.ajax`
once. -/
def search_btn_click (page : Page) : Page × List AjaxSettings :=
  let pid := stringToNumber page.form.pid
  let name := page.form.name
  let condition := stringToNumber page.form.condition
  let active := decide (page.form.active = "true")
  let queryString := search_btn_queryString name condition active
  let page := { page with flash_message := jq_empty page.flash_message }
  let ajax : AjaxSettings :=
    if pid.isZero then
      { type := "GET",
        url := "/inventory?" ++ queryString,
        contentType := "application/json",
        data := .text "" }
    else
      { type := "GET",
        url := "/inventory/" ++ numberToString pid ++ "?" ++ queryString,
        contentType := "application/json",
        data := .text "" }
  (page, [ajax])

/-- The row loop of the `search_btn` success handler: `i` is the loop index,
`table` the markup so far and `firstItem` the first item once it has been seen
(`none` stands for the initial `""`). -/
def search_btn_done_loop : List Item → Nat → String × Option Item → String × Option Item
  | [], _, acc => acc
  | item :: rest, i, (table, firstItem) =>
    let table := table ++ ("<tr pid=\"row_" ++ numberToString (.ofInt i) ++ "\"><td>"
      ++ item.pid.toStr ++ "</td><td>" ++ item.name.toStr ++ "</td><td>"
      ++ item.condition.toStr ++ "</td><td>" ++ item.active.toStr ++ "</td><td>"
      ++ item.quantity.toStr ++ "</td><td>" ++ item.restock_level.toStr ++ "</td></tr>")
    let firstItem := if i = 0 then some item else firstItem
    search_btn_done_loop rest (i + 1) (table, firstItem)

/-- The `ajax.done` handler of `search_btn`.  The test `firstItem != ""` holds for
every item object and fails for the initial `""`. -/
def search_btn_done (page : Page) (res : List Item) : Page :=
  let page := { page with search_results := jq_empty page.search_results }
  let table := "<table class=\"table table-striped\" cellpadding=\"10\">"
  let table := table ++ "<thead><tr>"
  let table := table ++ "<th class=\"col-md-2\">PID</th>"
  let table := table ++ "<th class=\"col-md-2\">Name</th>"
  let table := table ++ "<th class=\"col-md-2\">condition</th>"
  let table := table ++ "<th class=\"col-md-2\">active</th>"
  let table := table ++ "<th class=\"col-md-2\">quantity</th>"
  let table := table ++ "<th class=\"col-md-2\">restock_level</th>"
  let table := table ++ "</tr></thead><tbody>"
  let (table, firstItem) := search_btn_done_loop res 0 (table, none)
  let table := table ++ "</tbody></table>"
  let page := { page with search_results := jq_append page.search_results (.string table) }
  -- copy the first result to the form
  let page :=
    match firstItem with
    | some item => { page with form := update_form_data page.form item }
    | none => page
  flash_message page (.string "Success")

/-- The `ajax.fail` handler of `search_btn`. -/
def search_btn_fail (page : Page) (res : JqXHR) : Outcome :=
  match res.responseJSON_message with
  | .error e => { page := page, thrown := some e }
  | .ok message => { page := flash_message page message, thrown := none }

/-! ## Runs of the controller -/

/-- What can happen to the page: a button is clicked, or the success or
failure callback of an earlier request runs with the response it is given. -/
inductive Event where
  | retrieve_click
  | retrieve_done (res : List Item)
  | retrieve_fail (res : JqXHR)
  | create_click
  | create_done (res : Item)
  | create_fail (res : JqXHR)
  | update_click
  | update_done (res : Item)
  | update_fail (res : JqXHR)
  | deleteAll_click
  | deleteAll_done
  | deleteAll_fail (res : JqXHR)
  | clear_click
  | listAll_click
  | listAll_done (res : List Item)
  | listAll_fail (res : JqXHR)
  | delete_click
  | delete_done
  | delete_fail (res : JqXHR)
  | search_click
  | search_done (res : List Item)
  | search_fail (res : JqXHR)

/-- The page after an event; a handler that throws leaves the page as it was
when it threw. -/
def step (page : Page) : Event → Page
  | .retrieve_click => (retrieve_btn_click page).1
  | .retrieve_done res => retrieve_btn_done page res
  | .retrieve_fail res => (retrieve_btn_fail page res).page
  | .create_click => (create_btn_click page).1
  | .create_done res => create_btn_done page res
  | .create_fail res => (create_btn_fail page res).page
  | .update_click => (update_btn_click page).1
  | .update_done res => update_btn_done page res
  | .update_fail res => (update_btn_fail page res).page
  | .deleteAll_click => (deleteAll_btn_click page).1
  | .deleteAll_done => deleteAll_btn_done page
  | .deleteAll_fail res => (deleteAll_btn_fail page res).page
  | .clear_click => (clear_btn_click page).1
  | .listAll_click => (listAll_btn_click page).1
  | .listAll_done res => listAll_btn_done page res
  | .listAll_fail res => (listAll_btn_fail page res).page
  | .delete_click => (delete_btn_click page).1
  | .delete_done => delete_btn_done page
  | .delete_fail res => (delete_btn_fail page res).page
  | .search_click => (search_btn_click page).1
  | .search_done res => search_btn_done page res
  | .search_fail res => (search_btn_fail page res).page

/-- The page after a sequence of events. -/
def run (page : Page) (events : List Event) : Page := events.foldl step page

/-- A page whose flash area is empty, as it is before the first action. -/
def startPage (form : Form) (search_results : List String) : Page :=
  { form := form, flash_message := [], search_results := search_results }

/-! ## The data model -/

/-- An inventory item as the data model types it. -/
structure InventoryItem where
  pid : Int
  name : String
  condition : Int
  active : Bool
  quantity : Int
  restock_level : Int
  deriving DecidableEq, Repr

namespace InventoryItem

/-- The item as the object a response carries. -/
def toItem (it : InventoryItem) : Item :=
  { pid := .number (.ofInt it.pid),
    name := .string it.name,
    condition := .number (.ofInt it.condition),
    active := .boolean it.active,
    quantity := .number (.ofInt it.quantity),
    restock_level := .number (.ofInt it.restock_level) }

/-- The item as the members of a JSON object. -/
def members (it : InventoryItem) : List (String × JSValue) :=
  [("pid", .number (.ofInt it.pid)),
   ("name", .string it.name),
   ("condition", .number (.ofInt it.condition)),
   ("active", .boolean it.active),
   ("quantity", .number (.ofInt it.quantity)),
   ("restock_level", .number (.ofInt it.restock_level))]

end InventoryItem

/-! ## The specification's words -/

/-- The six-column header every rendered table starts with. -/
def tableHeader : String :=
  "<table class=\"table table-striped\" cellpadding=\"10\"><thead><tr>"
    ++ "<th class=\"col-md-2\">PID</th><th class=\"col-md-2\">Name</th>"
    ++ "<th class=\"col-md-2\">condition</th><th class=\"col-md-2\">active</th>"
    ++ "<th class=\"col-md-2\">quantity</th><th class=\"col-md-2\">restock_level</th>"
    ++ "</tr></thead><tbody>"

/-- The row of the item at position `i`: six cells holding the text of its
six fields. -/
def tableRow (i : Nat) (item : Item) : String :=
  "<tr pid=\"row_" ++ numberToString (.ofInt i) ++ "\">"
    ++ String.join ([item.pid, item.name, item.condition, item.active, item.quantity,
        item.restock_level].map fun v => "<td>" ++ v.toStr ++ "</td>")
    ++ "</tr>"

/-- The rows of a response, one per item, in response order. -/
def tableRows (res : List Item) : List String :=
  res.enum.map fun (i, item) => tableRow i item

/-- The table of a response: the header, the rows, the closing tags. -/
def tableMarkup (res : List Item) : String :=
  tableHeader ++ String.join (tableRows res) ++ "</tbody></table>"

/-- The page after a response of items has been rendered: the results
container holds the table of the response and nothing else, the form holds
the first item if there is one, the flash area holds `Success`. -/
def renderedPage (page : Page) (res : List Item) : Page :=
  { form :=
      match res with
      | [] => page.form
      | item :: _ => update_form_data page.form item,
    flash_message := ["Success"],
    search_results := [tableMarkup res] }

/-- A form for examples. -/
def exampleForm : Form :=
  { pid := "7", name := "Widget", condition := "1", active := "true", quantity := "10",
    restock_level := "2" }

/-! ## Printing and reading numbers -/

theorem string_join_cons (a : String) (l : List String) :
    String.join (a :: l) = a ++ String.join l := by
  have h : ∀ (l : List String) (acc : String),
      List.foldl (fun r s => r ++ s) acc l = acc ++ List.foldl (fun r s => r ++ s) "" l := by
    intro l
    induction l with
    | nil => intro acc; simp
    | cons b l ih =>
      intro acc
      simp only [List.foldl_cons]
      rw [ih (acc ++ b), ih ("" ++ b), String.empty_append, String.append_assoc]
  unfold String.join
  rw [List.foldl_cons, h l ("" ++ a), String.empty_append]

theorem tableRow_eq (i : Nat) (item : Item) :
    "<tr pid=\"row_" ++ numberToString (.ofInt i) ++ "\"><td>"
      ++ item.pid.toStr ++ "</td><td>" ++ item.name.toStr ++ "</td><td>"
      ++ item.condition.toStr ++ "</td><td>" ++ item.active.toStr ++ "</td><td>"
      ++ item.quantity.toStr ++ "</td><td>" ++ item.restock_level.toStr ++ "</td></tr>"
      = tableRow i item := by
  have h1 : "\"><td>" = "\">" ++ "<td>" := by decide
  have h2 : "</td><td>" = "</td>" ++ "<td>" := by decide
  have h3 : "</td></tr>" = "</td>" ++ "</tr>" := by decide
  unfold tableRow
  have hnil : String.join [] = "" := rfl
  simp only [List.map, string_join_cons, hnil, h1, h2, h3, String.append_assoc,
    String.empty_append]

theorem tableHeader_eq :
    "<table class=\"table table-striped\" cellpadding=\"10\">" ++ "<thead><tr>"
      ++ "<th class=\"col-md-2\">PID</th>" ++ "<th class=\"col-md-2\">Name</th>"
      ++ "<th class=\"col-md-2\">condition</th>" ++ "<th class=\"col-md-2\">active</th>"
      ++ "<th class=\"col-md-2\">quantity</th>" ++ "<th class=\"col-md-2\">restock_level</th>"
      ++ "</tr></thead><tbody>" = tableHeader := by
  rfl

theorem retrieve_btn_done_loop_eq (res : List Item) : ∀ (i : Nat) (table : String) (firstItem : Option Item),
    retrieve_btn_done_loop res i (table, firstItem)
      = (table ++ String.join ((res.enumFrom i).map fun (j, item) => tableRow j item),
         match res with
         | [] => firstItem
         | item :: _ => if i = 0 then some item else firstItem) := by
  induction res with
  | nil =>
    intro i table firstItem
    have hnil : String.join [] = "" := rfl
    simp [retrieve_btn_done_loop, hnil]
  | cons item rest ih =>
    intro i table firstItem
    simp only [retrieve_btn_done_loop, tableRow_eq]
    rw [ih]
    simp only [List.enumFrom_cons, List.map_cons, string_join_cons, String.append_assoc]
    cases rest <;> simp

theorem retrieve_btn_done_eq (page : Page) (res : List Item) :
    retrieve_btn_done page res = renderedPage page res := by
  unfold retrieve_btn_done renderedPage tableMarkup tableRows
  simp only [retrieve_btn_done_loop_eq, tableHeader_eq, List.enum]
  cases res <;> rfl

theorem listAll_btn_done_loop_eq (res : List Item) : ∀ (i : Nat) (table : String) (firstItem : Option Item),
    listAll_btn_done_loop res i (table, firstItem)
      = (table ++ String.join ((res.enumFrom i).map fun (j, item) => tableRow j item),
         match res with
         | [] => firstItem
         | item :: _ => if i = 0 then some item else firstItem) := by
  induction res with
  | nil =>
    intro i table firstItem
    have hnil : String.join [] = "" := rfl
    simp [listAll_btn_done_loop, hnil]
  | cons item rest ih =>
    intro i table firstItem
    simp only [listAll_btn_done_loop, tableRow_eq]
    rw [ih]
    simp only [List.enumFrom_cons, List.map_cons, string_join_cons, String.append_assoc]
    cases rest <;> simp

theorem listAll_btn_done_eq (page : Page) (res : List Item) :
    listAll_btn_done page res = renderedPage page res := by
  unfold listAll_btn_done renderedPage tableMarkup tableRows
  simp only [listAll_btn_done_loop_eq, tableHeader_eq, List.enum]
  cases res <;> rfl

theorem search_btn_done_loop_eq (res : List Item) : ∀ (i : Nat) (table : String) (firstItem : Option Item),
    search_btn_done_loop res i (table, firstItem)
      = (table ++ String.join ((res.enumFrom i).map fun (j, item) => tableRow j item),
         match res with
         | [] => firstItem
         | item :: _ => if i = 0 then some item else firstItem) := by
  induction res with
  | nil =>
    intro i table firstItem
    have hnil : String.join [] = "" := rfl
    simp [search_btn_done_loop, hnil]
  | cons item rest ih =>
    intro i table firstItem
    simp only [search_btn_done_loop, tableRow_eq]
    rw [ih]
    simp only [List.enumFrom_cons, List.map_cons, string_join_cons, String.append_assoc]
    cases rest <;> simp

theorem search_btn_done_eq (page : Page) (res : List Item) :
    search_btn_done page res = renderedPage page res := by
  unfold search_btn_done renderedPage tableMarkup tableRows
  simp only [search_btn_done_loop_eq, tableHeader_eq, List.enum]
  cases res <;> rfl

/-! ## The form and the items of the data model -/

/-- C9: the success handlers of Retrieve, List all and Search are the same
function: on every page and every response they leave the same results
container, the same form and the same flash area. -/
theorem done_handlers_agree (page : Page) (res : List Item) :
    retrieve_btn_done page res = listAll_btn_done page res
      ∧ listAll_btn_done page res = search_btn_done page res
      ∧ (retrieve_btn_done page res).search_results = (search_btn_done page res).search_results
      ∧ (retrieve_btn_done page res).form = (search_btn_done page res).form
      ∧ (retrieve_btn_done page res).flash_message = (search_btn_done page res).flash_message := by
  rw [retrieve_btn_done_eq, listAll_btn_done_eq, search_btn_done_eq]
  exact ⟨rfl, rfl, rfl, rfl, rfl⟩

/-! ## Create and Update -/

/-- C4 (the code at the failing input): with pid `7` in the form Delete-all
issues `DELETE /inventory/7` and its success handler shows
`Inventory Items Deleted!`, but the pid field still holds `7`: on every page
the handler empties five fields and leaves the pid field as it was. -/
theorem deleteAll_btn_done_keeps_pid (page : Page) :
    (deleteAll_btn_click
        { form := exampleForm, flash_message := [], search_results := [] }).2
        = [{ type := "DELETE", url := "/inventory/7", contentType := "application/json",
             data := .text "" }]
      ∧ deleteAll_btn_done { form := exampleForm, flash_message := [], search_results := [] }
          = { form := { pid := "7", name := "", condition := "", active := "", quantity := "",
                        restock_level := "" },
              flash_message := ["Inventory Items Deleted!"],
              search_results := [] }
      ∧ (deleteAll_btn_done page).form
          = { pid := page.form.pid, name := "", condition := "", active := "", quantity := "",
              restock_level := "" }
      ∧ (deleteAll_btn_done page).flash_message = ["Inventory Items Deleted!"] := by
  refine ⟨by decide, by decide, rfl, rfl⟩

/-- C5: whatever the page was, after Clear the six form fields and the flash
area are empty, and no request has been issued. -/
theorem clear_btn_click_clears (page : Page) :
    (clear_btn_click page).1.form
        = { pid := "", name := "", condition := "", active := "", quantity := "",
            restock_level := "" }
      ∧ (clear_btn_click page).1.flash_message = []
      ∧ (clear_btn_click page).2 = [] := by
  exact ⟨rfl, rfl, rfl⟩

/-- C8: whatever a failing response to Delete-all or Delete-one carries, the
failure handler returns normally, the flash area then shows exactly
`Server error!` and every form field is as it was. -/
theorem delete_fail_shows_server_error (page : Page) (res : JqXHR) :
    (deleteAll_btn_fail page res).page.flash_message = ["Server error!"]
      ∧ (deleteAll_btn_fail page res).page.form = page.form
      ∧ (deleteAll_btn_fail page res).thrown = none
      ∧ (delete_btn_fail page res).page.flash_message = ["Server error!"]
      ∧ (delete_btn_fail page res).page.form = page.form
      ∧ (delete_btn_fail page res).thrown = none := by
  exact ⟨rfl, rfl, rfl, rfl, rfl, rfl⟩

/-! ## Failure handlers -/

theorem responseJSON_message_isOk (res : JqXHR) :
    (∃ message, res.responseJSON_message = .ok message)
      ↔ res.responseJSON ≠ .undefined ∧ res.responseJSON ≠ .null := by
  unfold JqXHR.responseJSON_message
  cases h : res.responseJSON with
  | undefined => simp
  | null => simp
  | other => simp
  | object properties =>
    simp only [ne_eq, reduceCtorEq, not_false_eq_true, and_self, iff_true]
    cases hl : properties.lookup "message" <;> exact ⟨_, rfl⟩

/-- C6 (as stated, refuted): on a failing response without a JSON body the
failure handlers of Retrieve, Create, Update, List all and Search throw a
`TypeError`. -/
theorem fail_handlers_throw_without_body :
    (retrieve_btn_fail { form := exampleForm, flash_message := [], search_results := [] }
        { responseJSON := .undefined }).thrown = some .typeError
      ∧ (create_btn_fail { form := exampleForm, flash_message := [], search_results := [] }
          { responseJSON := .undefined }).thrown = some .typeError
      ∧ (update_btn_fail { form := exampleForm, flash_message := [], search_results := [] }
          { responseJSON := .undefined }).thrown = some .typeError
      ∧ (listAll_btn_fail { form := exampleForm, flash_message := [], search_results := [] }
          { responseJSON := .undefined }).thrown = some .typeError
      ∧ (search_btn_fail { form := exampleForm, flash_message := [], search_results := [] }
          { responseJSON := .undefined }).thrown = some .typeError := by
  refine ⟨by decide, by decide, by decide, by decide, by decide⟩

/-- C6 (amended): the failure handlers of Delete-all and Delete-one return
normally on every failing response; the failure handlers of Retrieve, Create,
Update, List all and Search return normally exactly when the response carries
a JSON body other than `null`, with or without a `message` member. -/
theorem fail_handlers_complete (page : Page) (res : JqXHR) (properties : List (String × JSValue)) :
    (deleteAll_btn_fail page res).thrown = none
      ∧ (delete_btn_fail page res).thrown = none
      ∧ ((retrieve_btn_fail page res).thrown = none
          ↔ res.responseJSON ≠ .undefined ∧ res.responseJSON ≠ .null)
      ∧ ((create_btn_fail page res).thrown = none
          ↔ res.responseJSON ≠ .undefined ∧ res.responseJSON ≠ .null)
      ∧ ((update_btn_fail page res).thrown = none
          ↔ res.responseJSON ≠ .undefined ∧ res.responseJSON ≠ .null)
      ∧ ((listAll_btn_fail page res).thrown = none
          ↔ res.responseJSON ≠ .undefined ∧ res.responseJSON ≠ .null)
      ∧ ((search_btn_fail page res).thrown = none
          ↔ res.responseJSON ≠ .undefined ∧ res.responseJSON ≠ .null)
      ∧ (create_btn_fail page { responseJSON := .object properties }).thrown = none
      ∧ (create_btn_fail page { responseJSON := .object [] }).page.flash_message = [] := by
  have key : ∀ (p : Page) (o : Outcome),
      (match res.responseJSON_message with
        | .error e => ({ page := p, thrown := some e } : Outcome)
        | .ok message => { page := flash_message p message, thrown := none }) = o →
      (o.thrown = none ↔ res.responseJSON ≠ .undefined ∧ res.responseJSON ≠ .null) := by
    intro p o ho
    rw [← responseJSON_message_isOk, ← ho]
    cases res.responseJSON_message <;> simp
  refine ⟨rfl, rfl, key _ _ rfl, key _ _ rfl, key _ _ rfl, key _ _ rfl, key _ _ rfl, ?_, rfl⟩
  simp only [create_btn_fail, JqXHR.responseJSON_message]
  cases properties.lookup "message" <;> rfl

/-! ## The flash area -/

theorem jq_append_nodes_length (message : JSValue) : (jq_append_nodes message).length ≤ 1 := by
  unfold jq_append_nodes
  split
  · split <;> simp
  · split <;> simp

theorem flash_message_eq (page : Page) (message : JSValue) :
    (flash_message page message).flash_message = jq_append_nodes message := by
  simp [flash_message, jq_empty, jq_append]

theorem message_fail_flash (page : Page) (res : JqXHR) :
    (match res.responseJSON_message with
      | .error e => ({ page := page, thrown := some e } : Outcome)
      | .ok message => { page := flash_message page message, thrown := none }).page.flash_message
      = match res.responseJSON_message with
        | .ok message => jq_append_nodes message
        | .error _ => page.flash_message := by
  cases res.responseJSON_message <;> simp [flash_message_eq]

theorem step_flash_length (page : Page) (event : Event) (h : page.flash_message.length ≤ 1) :
    (step page event).flash_message.length ≤ 1 := by
  cases event with
  | retrieve_click | create_click | update_click | deleteAll_click | clear_click | listAll_click
  | delete_click => simp [step, retrieve_btn_click, create_btn_click, update_btn_click,
      deleteAll_btn_click, clear_btn_click, listAll_btn_click, delete_btn_click, jq_empty]
  | search_click =>
    simp only [step, search_btn_click, jq_empty]
    simp
  | retrieve_done res => simp [step, retrieve_btn_done_eq, renderedPage]
  | listAll_done res => simp [step, listAll_btn_done_eq, renderedPage]
  | search_done res => simp [step, search_btn_done_eq, renderedPage]
  | create_done res => simp [step, create_btn_done, flash_message_eq, jq_append_nodes_length]
  | update_done res => simp [step, update_btn_done, flash_message_eq, jq_append_nodes_length]
  | deleteAll_done => simp [step, deleteAll_btn_done, flash_message_eq, jq_append_nodes_length]
  | delete_done => simp [step, delete_btn_done, flash_message_eq, jq_append_nodes_length]
  | deleteAll_fail res => simp [step, deleteAll_btn_fail, flash_message_eq, jq_append_nodes_length]
  | delete_fail res => simp [step, delete_btn_fail, flash_message_eq, jq_append_nodes_length]
  | retrieve_fail res =>
    simp only [step, retrieve_btn_fail, message_fail_flash]
    cases res.responseJSON_message <;> simp [jq_append_nodes_length, h]
  | create_fail res =>
    simp only [step, create_btn_fail, message_fail_flash]
    cases res.responseJSON_message <;> simp [jq_append_nodes_length, h]
  | update_fail res =>
    simp only [step, update_btn_fail, message_fail_flash]
    cases res.responseJSON_message <;> simp [jq_append_nodes_length, h]
  | listAll_fail res =>
    simp only [step, listAll_btn_fail, message_fail_flash]
    cases res.responseJSON_message <;> simp [jq_append_nodes_length, h]
  | search_fail res =>
    simp only [step, search_btn_fail, message_fail_flash]
    cases res.responseJSON_message <;> simp [jq_append_nodes_length, h]

theorem run_flash_length (events : List Event) : ∀ page : Page,
    page.flash_message.length ≤ 1 → (run page events).flash_message.length ≤ 1 := by
  induction events with
  | nil => intro page h; exact h
  | cons event events ih =>
    intro page h
    exact ih (step page event) (step_flash_length page event h)

/-- C7 (as stated, refuted): two Create requests are in flight, the first
succeeds and the flash area shows `Success`; the second fails without a JSON
body, its failure handler throws, and the flash area still shows `Success`:
that handler has not replaced the flash content with a message of its own. -/
theorem flash_kept_by_throwing_handler :
    (run (startPage exampleForm [])
        [.create_click, .create_click,
         .create_done (InventoryItem.toItem
            { pid := 7, name := "Widget", condition := 1, active := true, quantity := 10,
              restock_level := 2 })]).flash_message = ["Success"]
      ∧ (create_btn_fail
          (run (startPage exampleForm [])
            [.create_click, .create_click,
             .create_done (InventoryItem.toItem
                { pid := 7, name := "Widget", condition := 1, active := true, quantity := 10,
                  restock_level := 2 })])
          { responseJSON := .undefined }).thrown = some .typeError
      ∧ (run (startPage exampleForm [])
          [.create_click, .create_click,
           .create_done (InventoryItem.toItem
              { pid := 7, name := "Widget", condition := 1, active := true, quantity := 10,
                restock_level := 2 }),
           .create_fail { responseJSON := .undefined }]).flash_message = ["Success"] := by
  refine ⟨by decide, by decide, by decide⟩

/-- C7 (amended): in every state reached from a page with an empty flash area
by any sequence of clicks and response callbacks the flash area holds at most
one message.  Every action that issues a request empties the flash area before
the request is issued.  Every response handler that returns normally leaves
its own message as the whole flash content, whatever was there before (no
child at all when that message is `undefined`, empty, `false` or `NaN`); a
failure handler that throws leaves the flash content as it was. -/
theorem flash_area_single_message (form : Form) (results : List String) (events : List Event)
    (page : Page) (items : List Item) (item : Item) (res : JqXHR) (message : JSValue) :
    (run (startPage form results) events).flash_message.length ≤ 1
      ∧ ((retrieve_btn_click page).1.flash_message = []
          ∧ (create_btn_click page).1.flash_message = []
          ∧ (update_btn_click page).1.flash_message = []
          ∧ (deleteAll_btn_click page).1.flash_message = []
          ∧ (listAll_btn_click page).1.flash_message = []
          ∧ (delete_btn_click page).1.flash_message = []
          ∧ (search_btn_click page).1.flash_message = [])
      ∧ ((retrieve_btn_done page items).flash_message = ["Success"]
          ∧ (create_btn_done page item).flash_message = ["Success"]
          ∧ (update_btn_done page item).flash_message = ["Success"]
          ∧ (deleteAll_btn_done page).flash_message = ["Inventory Items Deleted!"]
          ∧ (listAll_btn_done page items).flash_message = ["Success"]
          ∧ (delete_btn_done page).flash_message = ["Inventory Item Deleted!"]
          ∧ (search_btn_done page items).flash_message = ["Success"])
      ∧ ((deleteAll_btn_fail page res).page.flash_message = ["Server error!"]
          ∧ (delete_btn_fail page res).page.flash_message = ["Server error!"])
      ∧ ((retrieve_btn_fail page res).page.flash_message
            = (match res.responseJSON_message with
                | .ok message => jq_append_nodes message
                | .error _ => page.flash_message)
          ∧ (create_btn_fail page res).page.flash_message
            = (match res.responseJSON_message with
                | .ok message => jq_append_nodes message
                | .error _ => page.flash_message)
          ∧ (update_btn_fail page res).page.flash_message
            = (match res.responseJSON_message with
                | .ok message => jq_append_nodes message
                | .error _ => page.flash_message)
          ∧ (listAll_btn_fail page res).page.flash_message
            = (match res.responseJSON_message with
                | .ok message => jq_append_nodes message
                | .error _ => page.flash_message)
          ∧ (search_btn_fail page res).page.flash_message
            = (match res.responseJSON_message with
                | .ok message => jq_append_nodes message
                | .error _ => page.flash_message))
      ∧ (flash_message page message).flash_message = jq_append_nodes message
      ∧ (jq_append_nodes message).length ≤ 1 := by
  refine ⟨run_flash_length events _ (by simp [startPage]), ?_, ?_, ⟨rfl, rfl⟩, ?_,
    flash_message_eq page message, jq_append_nodes_length message⟩
  · refine ⟨rfl, rfl, rfl, rfl, rfl, rfl, ?_⟩
    simp only [search_btn_click, jq_empty]
  · refine ⟨?_, rfl, rfl, rfl, ?_, rfl, ?_⟩
    · rw [retrieve_btn_done_eq]; rfl
    · rw [listAll_btn_done_eq]; rfl
    · rw [search_btn_done_eq]; rfl
  · refine ⟨?_, ?_, ?_, ?_, ?_⟩
    · simp only [retrieve_btn_fail, message_fail_flash]
    · simp only [create_btn_fail, message_fail_flash]
    · simp only [update_btn_fail, message_fail_flash]
    · simp only [listAll_btn_fail, message_fail_flash]
    · simp only [search_btn_fail, message_fail_flash]

end Inventory
